import Mathlib

set_option linter.all false

/-!
Shallow embedding of the weather_app backend: the SQLAlchemy models
(models.py), the CRUD layer (crud.py), the OpenWeatherMap adapter
(weather_api.py) and the FastAPI endpoints (main.py).

Modelling conventions: Python floats become rationals, datetime values
become unix seconds as Int, the database is an explicit DB value threaded
through the operations, and the outcome of each outbound HTTP request is an
input of type Except TransportError. The dict returned by the historical
adapter is kept as an association list so that a read of a missing key
surfaces as a KeyError, exactly as it does in the source.
-/

/-- A requests.RequestException from the transport layer; msg is str(e). -/
structure TransportError where
  msg : String
deriving DecidableEq, Repr

/-- A Python KeyError, raised by a dict subscript on a missing key. -/
inductive RuntimeErr where
  | keyError (key : String)
deriving DecidableEq, Repr

/-- A JSON-ish Python value as the adapter dicts hold it: a float, a string
or a datetime (unix seconds). -/
inductive PyVal where
  | num (q : ℚ)
  | str (s : String)
  | dt (t : Int)
deriving DecidableEq, Repr

/-- Reading a float out of a PyVal. -/
def PyVal.asNum : PyVal → ℚ
  | .num q => q
  | _ => 0

def PyVal.asStr : PyVal → String
  | .str s => s
  | _ => ""

def PyVal.asDt : PyVal → Int
  | .dt t => t
  | _ => 0

/-- A Python dict with string keys, as an association list. -/
abbrev PyDict := List (String × PyVal)

/-- d[key] in Python: the value, or a KeyError when the key is absent. -/
def dictGet (d : PyDict) (key : String) : Except RuntimeErr PyVal :=
  match d.find? (fun p => p.1 == key) with
  | some p => .ok p.2
  | none => .error (.keyError key)

/-- models.Location (models.py lines 11-25). -/
structure Location where
  id : Nat
  city : String
  country : String
  latitude : ℚ
  longitude : ℚ
deriving DecidableEq, Repr

/-- models.WeatherRecord (models.py lines 31-44); timestamp defaults to the
instant of insertion (datetime.utcnow). -/
structure WeatherRecord where
  id : Nat
  location_id : Nat
  temperature : ℚ
  humidity : ℚ
  pressure : ℚ
  description : String
  icon : String
  timestamp : Int
deriving DecidableEq, Repr

/-- models.HistoricalWeatherRecord (models.py lines 49-63). -/
structure HistoricalWeatherRecord where
  id : Nat
  location_id : Nat
  temperature : ℚ
  humidity : ℚ
  pressure : ℚ
  description : String
  icon : String
  timestamp : Int
  query_timestamp : Int
deriving DecidableEq, Repr

/-- The three tables, in insertion order, plus the autoincrement counters of
the primary keys. -/
structure DB where
  locations : List Location
  weather_records : List WeatherRecord
  historical_records : List HistoricalWeatherRecord
  next_location_id : Nat
  next_weather_id : Nat
  next_historical_id : Nat
deriving DecidableEq, Repr

/-- schemas.LocationCreate (schemas.py lines 11-19). -/
structure LocationCreate where
  city : String
  country : String
  latitude : ℚ
  longitude : ℚ
deriving DecidableEq, Repr

/-- schemas.WeatherRecordCreate (schemas.py lines 29-38). -/
structure WeatherRecordCreate where
  location_id : Nat
  temperature : ℚ
  humidity : ℚ
  pressure : ℚ
  description : String
  icon : String
deriving DecidableEq, Repr

/-- schemas.HistoricalWeatherRecordCreate (schemas.py lines 73-76). -/
structure HistoricalWeatherRecordCreate where
  location_id : Nat
  temperature : ℚ
  humidity : ℚ
  pressure : ℚ
  description : String
  icon : String
  query_timestamp : Int
  timestamp : Int
deriving DecidableEq, Repr

/-- schemas.WeatherRecordUpdate (schemas.py lines 85-87). -/
structure WeatherRecordUpdate where
  temperature : ℚ
  description : String
deriving DecidableEq, Repr

/-- The part of the upstream /data/2.5/weather JSON that the adapter reads
(weather_api.py lines 53-62): main.temp, main.humidity, main.pressure,
the first weather entry, coord and sys.country. -/
structure CurrentRaw where
  main_temp : ℚ
  main_humidity : ℚ
  main_pressure : ℚ
  weather0_description : String
  weather0_icon : String
  coord_lat : ℚ
  coord_lon : ℚ
  sys_country : String
deriving DecidableEq, Repr

/-- One item of the upstream /data/2.5/forecast list (weather_api.py
lines 95-104). -/
structure ForecastItemRaw where
  main_temp : ℚ
  main_humidity : ℚ
  main_pressure : ℚ
  weather0_description : String
  weather0_icon : String
  dt : Int
deriving DecidableEq, Repr

/-- One entry of the data array of the onecall/timemachine response
(weather_api.py lines 145-152); temp is already Celsius (units=metric). -/
structure UpstreamHistEntry where
  temp : ℚ
  humidity : ℚ
  pressure : ℚ
  description : String
  dt : Int
deriving DecidableEq, Repr

/-- The onecall/timemachine response body (weather_api.py lines 140-154). -/
structure UpstreamHistResponse where
  lat : ℚ
  lon : ℚ
  data : List UpstreamHistEntry
deriving DecidableEq, Repr

namespace weather_api

/-- weather_api.WeatherAPIException (weather_api.py lines 18-19); msg is the
message the adapter raises it with. -/
structure WeatherAPIException where
  msg : String
deriving DecidableEq, Repr

/-- weather_api.kelvin_to_celsius (weather_api.py lines 22-23). -/
def kelvin_to_celsius (kelvin : ℚ) : ℚ :=
  kelvin - 273.15

/-- The dict weather_api.get_current_weather returns (weather_api.py
lines 53-62); every key read downstream is present, so a record type is an
exact model of it. -/
structure CurrentWeatherData where
  temperature : ℚ
  humidity : ℚ
  pressure : ℚ
  description : String
  icon : String
  latitude : ℚ
  longitude : ℚ
  country : String
deriving DecidableEq, Repr

/-- weather_api.get_current_weather (weather_api.py lines 26-64); fetch is
the outcome of the GET on /data/2.5/weather, raise_for_status folded in. -/
def get_current_weather (fetch : Except TransportError CurrentRaw) :
    Except WeatherAPIException CurrentWeatherData :=
  match fetch with
  | .error e => .error ⟨"Failed to fetch weather data: " ++ e.msg⟩
  | .ok data =>
    .ok { temperature := kelvin_to_celsius data.main_temp,
          humidity := data.main_humidity,
          pressure := data.main_pressure,
          description := data.weather0_description,
          icon := data.weather0_icon,
          latitude := data.coord_lat,
          longitude := data.coord_lon,
          country := data.sys_country }

/-- One normalized forecast point (weather_api.py lines 97-104). -/
structure ForecastPoint where
  temperature : ℚ
  humidity : ℚ
  pressure : ℚ
  description : String
  icon : String
  timestamp : Int
deriving DecidableEq, Repr

/-- The body of the loop in weather_api.get_weather_forecast
(weather_api.py lines 97-104). -/
def normalize_forecast_item (item : ForecastItemRaw) : ForecastPoint :=
  { temperature := kelvin_to_celsius item.main_temp,
    humidity := item.main_humidity,
    pressure := item.main_pressure,
    description := item.weather0_description,
    icon := item.weather0_icon,
    timestamp := item.dt }

/-- weather_api.get_weather_forecast (weather_api.py lines 67-107); fetch is
the outcome of the GET on /data/2.5/forecast, its ok value the list field of
the body. The loop over the slice is a map over a take. -/
def get_weather_forecast (fetch : Except TransportError (List ForecastItemRaw))
    (days : Nat) : Except WeatherAPIException (List ForecastPoint) :=
  match fetch with
  | .error e => .error ⟨"Failed to fetch forecast data: " ++ e.msg⟩
  | .ok data =>
    .ok ((data.take (days * 8)).map normalize_forecast_item)

/-- if not OPENWEATHER_API_KEY (weather_api.py line 113): a missing variable
or an empty string is falsy. -/
def apiKeyConfigured : Option String → Bool
  | none => false
  | some s => s != ""

/-- weather_api.get_historical_weather (weather_api.py lines 110-157).
timestamp is the dt request parameter; currentFetch backs the coordinate
resolution via get_current_weather when lat or lon is missing; histFetch is
the outcome of the GET on onecall/timemachine. The returned dict is built
from lines 147-155 and carries no icon key. -/
def get_historical_weather (apiKey : Option String) (timestamp : Int)
    (lat lon : Option ℚ)
    (currentFetch : Except TransportError CurrentRaw)
    (histFetch : Except TransportError UpstreamHistResponse) :
    Except WeatherAPIException PyDict :=
  if apiKeyConfigured apiKey = false then
    .error ⟨"OpenWeather API key not found"⟩
  else
    let coords : Except WeatherAPIException (ℚ × ℚ) :=
      if lat.isNone || lon.isNone then
        match get_current_weather currentFetch with
        | .error e => .error e
        | .ok city_data => .ok (city_data.latitude, city_data.longitude)
      else
        .ok (lat.getD 0, lon.getD 0)
    match coords with
    | .error e => .error e
    | .ok _ =>
      match histFetch with
      | .error e => .error ⟨"Failed to fetch historical weather data: " ++ e.msg⟩
      | .ok data =>
        match data.data with
        | [] => .error ⟨"No historical data available for the specified time"⟩
        | weather_data :: _ =>
          .ok [("temperature", .num weather_data.temp),
               ("humidity", .num weather_data.humidity),
               ("pressure", .num weather_data.pressure),
               ("description", .str weather_data.description),
               ("timestamp", .dt weather_data.dt),
               ("latitude", .num data.lat),
               ("longitude", .num data.lon)]

end weather_api

namespace crud

/-- crud.get_location_by_city (crud.py lines 18-24): ilike on city, an exact
country filter only when country is truthy, first match wins. -/
def get_location_by_city (db : DB) (city : String) (country : Option String) :
    Option Location :=
  db.locations.find? (fun l =>
    (l.city.toLower == city.toLower) &&
    (match country with
     | none => true
     | some c => if c == "" then true else l.country == c))

/-- crud.create_location (crud.py lines 31-41). -/
def create_location (db : DB) (location : LocationCreate) : DB × Location :=
  let db_location : Location :=
    { id := db.next_location_id, city := location.city,
      country := location.country, latitude := location.latitude,
      longitude := location.longitude }
  ({ db with locations := db.locations ++ [db_location],
             next_location_id := db.next_location_id + 1 },
   db_location)

/-- crud.create_weather_record (crud.py lines 66-76); now is the
datetime.utcnow default of the timestamp column (models.py line 41). -/
def create_weather_record (db : DB) (weather : WeatherRecordCreate)
    (now : Int) : DB × WeatherRecord :=
  let db_weather : WeatherRecord :=
    { id := db.next_weather_id, location_id := weather.location_id,
      temperature := weather.temperature, humidity := weather.humidity,
      pressure := weather.pressure, description := weather.description,
      icon := weather.icon, timestamp := now }
  ({ db with weather_records := db.weather_records ++ [db_weather],
             next_weather_id := db.next_weather_id + 1 },
   db_weather)

/-- crud.create_historical_weather_record (crud.py lines 143-159): look up
by (location_id, query_timestamp); if found return the row untouched, else
insert. -/
def create_historical_weather_record (db : DB)
    (weather : HistoricalWeatherRecordCreate) :
    DB × HistoricalWeatherRecord :=
  let existing_record := db.historical_records.find? (fun r =>
    r.location_id == weather.location_id &&
    r.query_timestamp == weather.query_timestamp)
  match existing_record with
  | some r => (db, r)
  | none =>
    let db_weather : HistoricalWeatherRecord :=
      { id := db.next_historical_id, location_id := weather.location_id,
        temperature := weather.temperature, humidity := weather.humidity,
        pressure := weather.pressure, description := weather.description,
        icon := weather.icon, timestamp := weather.timestamp,
        query_timestamp := weather.query_timestamp }
    ({ db with historical_records := db.historical_records ++ [db_weather],
               next_historical_id := db.next_historical_id + 1 },
     db_weather)

/-- crud.delete_location (crud.py lines 180-185) together with the cascade
declared on the relationships (models.py lines 21-23): deleting the found
location also deletes every weather and historical record whose location_id
references it. -/
def delete_location (db : DB) (location_id : Nat) : DB × Option Location :=
  match db.locations.find? (fun l => l.id == location_id) with
  | none => (db, none)
  | some db_location =>
    ({ db with
        locations := db.locations.filter (fun l => !(l.id == location_id)),
        weather_records :=
          db.weather_records.filter (fun r => !(r.location_id == location_id)),
        historical_records :=
          db.historical_records.filter
            (fun r => !(r.location_id == location_id)) },
     some db_location)

end crud

/-- The observable outcome of an endpoint besides the database: an
HTTPException with status and detail, or an uncaught Python exception. -/
inductive EndpointErr where
  | http (status : Nat) (detail : String)
  | uncaught (e : RuntimeErr)
deriving DecidableEq, Repr

namespace app

/-- The create-or-reuse location step shared by the two ingestion endpoints
(main.py lines 52-59 and 161-168). -/
def resolve_or_create_location (db : DB) (city : String) (country : String)
    (latitude longitude : ℚ) : DB × Location :=
  match crud.get_location_by_city db city (some country) with
  | some location => (db, location)
  | none =>
    crud.create_location db
      { city := city, country := country,
        latitude := latitude, longitude := longitude }

/-- The create_location endpoint, POST /locations/ (main.py lines 27-32):
note the lookup passes no country. -/
def create_location (db : DB) (location : LocationCreate) :
    DB × Except EndpointErr Location :=
  match crud.get_location_by_city db location.city none with
  | some _ => (db, .error (.http 400 "City already registered"))
  | none =>
    let p := crud.create_location db location
    (p.1, .ok p.2)

/-- The get_current_weather endpoint, GET /weather/current/:city (main.py
lines 41-80); now is the call instant (datetime.utcnow), fetch the outcome
of the upstream request. -/
def get_current_weather (db : DB) (now : Int) (city : String)
    (fetch : Except TransportError CurrentRaw) :
    DB × Except EndpointErr weather_api.CurrentWeatherData :=
  match weather_api.get_current_weather fetch with
  | .error e => (db, .error (.http 503 e.msg))
  | .ok weather_data =>
    let p := resolve_or_create_location db city weather_data.country
      weather_data.latitude weather_data.longitude
    let existing_record := p.1.weather_records.find? (fun r =>
      r.location_id == p.2.id && decide (now - 60 ≤ r.timestamp))
    match existing_record with
    | some _ => (p.1, .ok weather_data)
    | none =>
      let q := crud.create_weather_record p.1
        { location_id := p.2.id,
          temperature := weather_data.temperature,
          humidity := weather_data.humidity,
          pressure := weather_data.pressure,
          description := weather_data.description,
          icon := weather_data.icon } now
      (q.1, .ok weather_data)

/-- The keyword arguments of HistoricalWeatherRecordCreate as main.py
lines 171-180 builds them: five dict subscripts on the adapter payload, in
source order, any of which can raise a KeyError. -/
def buildHistoricalCreate (weather_data : PyDict) (location_id : Nat)
    (timestamp now : Int) :
    Except RuntimeErr HistoricalWeatherRecordCreate := do
  let temperature ← dictGet weather_data "temperature"
  let humidity ← dictGet weather_data "humidity"
  let pressure ← dictGet weather_data "pressure"
  let description ← dictGet weather_data "description"
  let icon ← dictGet weather_data "icon"
  pure { location_id := location_id,
         temperature := temperature.asNum,
         humidity := humidity.asNum,
         pressure := pressure.asNum,
         description := description.asStr,
         icon := icon.asStr,
         query_timestamp := timestamp,
         timestamp := now }

/-- The get_historical_weather endpoint, GET /weather/historical/:city
(main.py lines 145-184): fetch current for the country, fetch historical at
the current coordinates, resolve or create the location, then persist via
crud.create_historical_weather_record. Only a WeatherAPIException is turned
into a 503; a KeyError escapes uncaught, after the location step already
committed. -/
def get_historical_weather (db : DB) (now : Int) (city : String)
    (timestamp : Int) (apiKey : Option String)
    (currentFetch : Except TransportError CurrentRaw)
    (histFetch : Except TransportError UpstreamHistResponse) :
    DB × Except EndpointErr HistoricalWeatherRecord :=
  match weather_api.get_current_weather currentFetch with
  | .error e => (db, .error (.http 503 e.msg))
  | .ok city_data =>
    match weather_api.get_historical_weather apiKey timestamp
        (some city_data.latitude) (some city_data.longitude)
        currentFetch histFetch with
    | .error e => (db, .error (.http 503 e.msg))
    | .ok weather_data =>
      let p := resolve_or_create_location db city city_data.country
        city_data.latitude city_data.longitude
      match buildHistoricalCreate weather_data p.2.id timestamp now with
      | .error e => (p.1, .error (.uncaught e))
      | .ok c =>
        let q := crud.create_historical_weather_record p.1 c
        (q.1, .ok q.2)

/-- In-place mutation of the first row the query returns (main.py
lines 123-125): the first record with this id gets temperature and
description replaced, every other row is untouched. -/
def updateFirst (l : List WeatherRecord) (record_id : Nat)
    (weather : WeatherRecordUpdate) : List WeatherRecord :=
  match l with
  | [] => []
  | r :: rs =>
    if r.id == record_id then
      { r with temperature := weather.temperature,
               description := weather.description } :: rs
    else
      r :: updateFirst rs record_id weather

/-- The update_weather endpoint, PUT /weather/:id (main.py lines 116-128). -/
def update_weather (db : DB) (record_id : Nat)
    (weather : WeatherRecordUpdate) :
    DB × Except EndpointErr WeatherRecord :=
  match db.weather_records.find? (fun r => r.id == record_id) with
  | none => (db, .error (.http 404 "Weather record not found"))
  | some db_weather =>
    ({ db with
        weather_records := updateFirst db.weather_records record_id weather },
     .ok { db_weather with temperature := weather.temperature,
                           description := weather.description })

/-- The delete_location endpoint, DELETE /locations/:id (main.py
lines 187-192). -/
def delete_location (db : DB) (location_id : Nat) :
    DB × Except EndpointErr String :=
  let p := crud.delete_location db location_id
  match p.2 with
  | none => (p.1, .error (.http 404 "Location not found"))
  | some _ =>
    (p.1, .ok "Location and associated records deleted successfully")

end app

/-! ## Helper lemmas -/

theorem find?_append_of_none {α : Type _} {p : α → Bool} {l1 l2 : List α}
    (h : l1.find? p = none) : (l1 ++ l2).find? p = l2.find? p := by
  rw [List.find?_append, h, Option.none_or]

/-! ## Claim theorems -/

/-- Claim C8: the temperature conversion used by the current and forecast
adapters satisfies kelvin_to_celsius k = k - 273.15, kelvin_to_celsius
273.15 = 0, and the current-weather adapter applies this conversion to the
upstream temperature field. -/
theorem kelvin_conversion_correct :
    (∀ k : ℚ, weather_api.kelvin_to_celsius k = k - 273.15) ∧
    weather_api.kelvin_to_celsius 273.15 = 0 ∧
    (∀ raw : CurrentRaw,
      weather_api.get_current_weather (.ok raw) =
        .ok { temperature := weather_api.kelvin_to_celsius raw.main_temp,
              humidity := raw.main_humidity,
              pressure := raw.main_pressure,
              description := raw.weather0_description,
              icon := raw.weather0_icon,
              latitude := raw.coord_lat,
              longitude := raw.coord_lon,
              country := raw.sys_country }) := by
  refine ⟨fun k => rfl, ?_, fun raw => rfl⟩
  unfold weather_api.kelvin_to_celsius
  norm_num

/-- Claim C7: for days in 1..5 the forecast adapter returns exactly the
first days * 8 entries of the upstream series, normalized in upstream
order; with days = 2 and a series of at least 16 items it returns exactly
16 entries. -/
theorem forecast_takes_first_entries (days : Nat)
    (series : List ForecastItemRaw) (h1 : 1 ≤ days) (h2 : days ≤ 5) :
    weather_api.get_weather_forecast (.ok series) days =
      .ok ((series.take (days * 8)).map weather_api.normalize_forecast_item) ∧
    ((series.take (days * 8)).map weather_api.normalize_forecast_item).length
      = min (days * 8) series.length ∧
    (days = 2 → 16 ≤ series.length →
      ((series.take (days * 8)).map
          weather_api.normalize_forecast_item).length = 16) := by
  refine ⟨rfl, by simp, ?_⟩
  intro hd hlen
  subst hd
  simp
  omega

def sampleForecastSeries : List ForecastItemRaw :=
  (List.range 20).map (fun i =>
    { main_temp := 280, main_humidity := 50, main_pressure := 1000,
      weather0_description := "clear sky", weather0_icon := "01d",
      dt := (i : Int) })

theorem forecast_takes_first_entries_witness :
    1 ≤ 2 ∧ 2 ≤ 5 ∧
    (weather_api.get_weather_forecast (.ok sampleForecastSeries) 2 =
      .ok ((sampleForecastSeries.take (2 * 8)).map
        weather_api.normalize_forecast_item) ∧
    ((sampleForecastSeries.take (2 * 8)).map
        weather_api.normalize_forecast_item).length
      = min (2 * 8) sampleForecastSeries.length ∧
    (2 = 2 → 16 ≤ sampleForecastSeries.length →
      ((sampleForecastSeries.take (2 * 8)).map
          weather_api.normalize_forecast_item).length = 16)) :=
  ⟨by decide, by decide,
    forecast_takes_first_entries 2 sampleForecastSeries (by decide) (by decide)⟩

/-- Claim C6: the historical adapter fails (returns no value) with the
api-key message when no credential is configured; with the transport
message when the timemachine call fails and with the no-data message when
the response holds no entries, in each case whether the coordinates were
supplied or resolved from the city via the current-weather fetch; and with
the current-weather transport message when the coordinate resolution
itself fails. -/
theorem historical_fetch_failure_modes (apiKey : Option String) (ts : Int)
    (lat lon : Option ℚ)
    (currentFetch : Except TransportError CurrentRaw)
    (histFetch : Except TransportError UpstreamHistResponse) :
    (weather_api.apiKeyConfigured apiKey = false →
      weather_api.get_historical_weather apiKey ts lat lon currentFetch histFetch
        = .error ⟨"OpenWeather API key not found"⟩) ∧
    (∀ e, weather_api.apiKeyConfigured apiKey = true →
      ((lat.isSome && lon.isSome) = true ∨ ∃ raw, currentFetch = .ok raw) →
      histFetch = .error e →
      weather_api.get_historical_weather apiKey ts lat lon currentFetch histFetch
        = .error ⟨"Failed to fetch historical weather data: " ++ e.msg⟩) ∧
    (∀ resp, weather_api.apiKeyConfigured apiKey = true →
      ((lat.isSome && lon.isSome) = true ∨ ∃ raw, currentFetch = .ok raw) →
      histFetch = .ok resp → resp.data = [] →
      weather_api.get_historical_weather apiKey ts lat lon currentFetch histFetch
        = .error ⟨"No historical data available for the specified time"⟩) ∧
    (∀ e, weather_api.apiKeyConfigured apiKey = true →
      (lat.isNone = true ∨ lon.isNone = true) → currentFetch = .error e →
      weather_api.get_historical_weather apiKey ts lat lon currentFetch histFetch
        = .error ⟨"Failed to fetch weather data: " ++ e.msg⟩) := by
  refine ⟨?_, ?_, ?_, ?_⟩
  · intro hk
    simp [weather_api.get_historical_weather, hk]
  · intro e hk hres he
    subst he
    cases hio : (lat.isNone || lon.isNone) with
    | false =>
      simp [weather_api.get_historical_weather, hk, hio]
    | true =>
      obtain ⟨raw, hcf⟩ : ∃ raw, currentFetch = .ok raw := by
        rcases hres with hc | hc
        · exfalso
          cases lat <;> cases lon <;> simp_all
        · exact hc
      subst hcf
      simp [weather_api.get_historical_weather, hk, hio,
        weather_api.get_current_weather]
  · intro resp hk hres he hd
    subst he
    cases hio : (lat.isNone || lon.isNone) with
    | false =>
      simp [weather_api.get_historical_weather, hk, hio, hd]
    | true =>
      obtain ⟨raw, hcf⟩ : ∃ raw, currentFetch = .ok raw := by
        rcases hres with hc | hc
        · exfalso
          cases lat <;> cases lon <;> simp_all
        · exact hc
      subst hcf
      simp [weather_api.get_historical_weather, hk, hio, hd,
        weather_api.get_current_weather]
  · intro e hk hnone hc
    subst hc
    have : (lat.isNone || lon.isNone) = true := by
      rcases hnone with h | h <;> simp [h]
    simp [weather_api.get_historical_weather, hk, this,
      weather_api.get_current_weather]


/-- A one-location database: London registered with country GB. -/
def locationsExample : DB :=
  { locations := [{ id := 1, city := "London", country := "GB",
                    latitude := 5151/100, longitude := -13/100 }],
    weather_records := [], historical_records := [],
    next_location_id := 2, next_weather_id := 1, next_historical_id := 1 }

/-- Counterexample to claim C5 as stated: POST /locations/ for (London, CA)
is refused with the conflict error although no registered location has that
natural key (the only London is in GB), because the endpoint looks up by
city alone. -/
theorem create_location_conflict_cex :
    (app.create_location locationsExample
        { city := "London", country := "CA",
          latitude := 43, longitude := -79 }).2
      = .error (.http 400 "City already registered") ∧
    (∀ l ∈ locationsExample.locations,
      ¬(l.city.toLower = "London".toLower ∧ l.country = "CA")) := by
  constructor
  · simp [app.create_location, crud.get_location_by_city, locationsExample,
      List.find?]
  · intro l hl
    simp only [locationsExample, List.mem_singleton] at hl
    subst hl
    rintro ⟨-, h2⟩
    exact absurd h2 (by decide)

/-- Claim C5 amended: POST /locations/ is refused with the conflict error
exactly when some registered location has the same city, compared
case-insensitively, regardless of country; otherwise the location is
appended. -/
theorem create_location_conflict_iff_city (db : DB)
    (location : LocationCreate) :
    ((app.create_location db location).2
        = .error (.http 400 "City already registered")
      ↔ ∃ l ∈ db.locations, l.city.toLower = location.city.toLower) ∧
    ((∀ l ∈ db.locations, l.city.toLower ≠ location.city.toLower) →
      (app.create_location db location).1.locations
        = db.locations ++
          [{ id := db.next_location_id, city := location.city,
             country := location.country, latitude := location.latitude,
             longitude := location.longitude }]) := by
  cases hf : crud.get_location_by_city db location.city none with
  | some l =>
    have hf2 := hf
    unfold crud.get_location_by_city at hf2
    have hp := List.find?_some hf2
    simp only [Bool.and_eq_true, beq_iff_eq] at hp
    have hmem := List.mem_of_find?_eq_some hf2
    constructor
    · constructor
      · intro _
        exact ⟨l, hmem, hp.1⟩
      · intro _
        unfold app.create_location
        rw [hf]
    · intro hall
      exact absurd hp.1 (hall l hmem)
  | none =>
    have hf2 := hf
    unfold crud.get_location_by_city at hf2
    have hnone := List.find?_eq_none.mp hf2
    constructor
    · constructor
      · intro hbad
        exfalso
        unfold app.create_location at hbad
        rw [hf] at hbad
        simp [crud.create_location] at hbad
      · intro hex
        exfalso
        obtain ⟨l, hmem, heq⟩ := hex
        apply hnone l hmem
        simp [heq]
    · intro _
      unfold app.create_location
      rw [hf]
      simp [crud.create_location]

/-- How many historical rows exist for a (location_id, query_timestamp)
pair. -/
def pairCount (l : List HistoricalWeatherRecord) (loc : Nat) (qt : Int) :
    Nat :=
  (l.filter (fun r => r.location_id == loc && r.query_timestamp == qt)).length

theorem pairCount_append_single (l : List HistoricalWeatherRecord)
    (n : HistoricalWeatherRecord) (loc : Nat) (qt : Int) :
    pairCount (l ++ [n]) loc qt
      = pairCount l loc qt +
        (if n.location_id = loc ∧ n.query_timestamp = qt then 1 else 0) := by
  unfold pairCount
  rw [List.filter_append, List.length_append]
  by_cases h : n.location_id = loc ∧ n.query_timestamp = qt
  · rw [if_pos h]
    simp [List.filter, h.1, h.2]
  · rw [if_neg h]
    have hb : (n.location_id == loc && n.query_timestamp == qt) = false := by
      cases not_and_or.mp h with
      | inl h1 => simp [beq_false_of_ne h1]
      | inr h1 => simp [beq_false_of_ne h1]
    simp [List.filter, hb]

/-- Claim C4: create_historical_weather_record returns a found row untouched
and inserts nothing, inserts exactly when no row for the pair exists, and
preserves the at-most-one-row-per-pair invariant. -/
theorem historical_create_upsert (db : DB)
    (w : HistoricalWeatherRecordCreate) :
    (∀ r, db.historical_records.find? (fun s =>
          s.location_id == w.location_id &&
          s.query_timestamp == w.query_timestamp) = some r →
      crud.create_historical_weather_record db w = (db, r) ∧
      r ∈ db.historical_records ∧
      r.location_id = w.location_id ∧
      r.query_timestamp = w.query_timestamp) ∧
    (db.historical_records.find? (fun s =>
          s.location_id == w.location_id &&
          s.query_timestamp == w.query_timestamp) = none →
      (crud.create_historical_weather_record db w).1.historical_records
        = db.historical_records ++
          [{ id := db.next_historical_id, location_id := w.location_id,
             temperature := w.temperature, humidity := w.humidity,
             pressure := w.pressure, description := w.description,
             icon := w.icon, timestamp := w.timestamp,
             query_timestamp := w.query_timestamp }]) ∧
    ((∀ loc qt, pairCount db.historical_records loc qt ≤ 1) →
      ∀ loc qt, pairCount
        (crud.create_historical_weather_record db w).1.historical_records
        loc qt ≤ 1) := by
  refine ⟨?_, ?_, ?_⟩
  · intro r hr
    have hp := List.find?_some hr
    simp only [Bool.and_eq_true, beq_iff_eq] at hp
    have hmem := List.mem_of_find?_eq_some hr
    have hcr : crud.create_historical_weather_record db w = (db, r) := by
      unfold crud.create_historical_weather_record
      rw [hr]
    exact ⟨hcr, hmem, hp.1, hp.2⟩
  · intro hn
    unfold crud.create_historical_weather_record
    rw [hn]
  · intro hinv loc qt
    cases hf : db.historical_records.find? (fun s =>
        s.location_id == w.location_id &&
        s.query_timestamp == w.query_timestamp) with
    | some r0 =>
      have hcr : crud.create_historical_weather_record db w = (db, r0) := by
        unfold crud.create_historical_weather_record
        rw [hf]
      rw [hcr]
      exact hinv loc qt
    | none =>
      have hrec : (crud.create_historical_weather_record db w).1.historical_records
          = db.historical_records ++
            [{ id := db.next_historical_id, location_id := w.location_id,
               temperature := w.temperature, humidity := w.humidity,
               pressure := w.pressure, description := w.description,
               icon := w.icon, timestamp := w.timestamp,
               query_timestamp := w.query_timestamp }] := by
        unfold crud.create_historical_weather_record
        rw [hf]
      rw [hrec, pairCount_append_single]
      show pairCount db.historical_records loc qt +
          (if w.location_id = loc ∧ w.query_timestamp = qt then 1 else 0) ≤ 1
      by_cases hp : w.location_id = loc ∧ w.query_timestamp = qt
      · rw [if_pos hp]
        have h0 : pairCount db.historical_records loc qt = 0 := by
          unfold pairCount
          rw [List.length_eq_zero, List.filter_eq_nil_iff]
          intro a ha
          have hall := List.find?_eq_none.mp hf a ha
          obtain ⟨h1, h2⟩ := hp
          subst h1
          subst h2
          exact hall
        omega
      · rw [if_neg hp]
        have := hinv loc qt
        omega

theorem updateFirst_decomposed (l1 l2 : List WeatherRecord)
    (r0 : WeatherRecord) (record_id : Nat) (w : WeatherRecordUpdate)
    (h : ∀ r ∈ l1, r.id ≠ record_id) (h0 : r0.id = record_id) :
    app.updateFirst (l1 ++ r0 :: l2) record_id w
      = l1 ++ ({ r0 with
                 temperature := w.temperature,
                 description := w.description } :: l2) := by
  induction l1 with
  | nil =>
    simp only [List.nil_append]
    unfold app.updateFirst
    rw [if_pos (by simp [h0])]
  | cons a as ih =>
    have ha : (a.id == record_id) = false :=
      beq_false_of_ne (h a (List.mem_cons_self a as))
    simp only [List.cons_append]
    unfold app.updateFirst
    rw [if_neg (by simp [ha])]
    rw [ih (fun r hr => h r (List.mem_cons_of_mem a hr))]

theorem find?_decomposed (l1 l2 : List WeatherRecord) (r0 : WeatherRecord)
    (record_id : Nat) (h : ∀ r ∈ l1, r.id ≠ record_id)
    (h0 : r0.id = record_id) :
    (l1 ++ r0 :: l2).find? (fun r => r.id == record_id) = some r0 := by
  rw [find?_append_of_none]
  · rw [List.find?_cons_of_pos]
    simp [h0]
  · rw [List.find?_eq_none]
    intro x hx
    simp [beq_false_of_ne (h x hx)]

/-- Claim C9: PUT /weather/:id on an existing record replaces exactly the
temperature and description of the first record with that id (the record
update syntax keeps location_id, humidity, pressure, icon and timestamp),
leaves every other row and both other tables unchanged, and on an absent id
returns the 404 error with the database unchanged. -/
theorem update_weather_frame (db : DB) (record_id : Nat)
    (w : WeatherRecordUpdate) :
    ((∀ r ∈ db.weather_records, r.id ≠ record_id) →
      app.update_weather db record_id w
        = (db, .error (.http 404 "Weather record not found"))) ∧
    (∀ l1 r0 l2, db.weather_records = l1 ++ r0 :: l2 →
      (∀ r ∈ l1, r.id ≠ record_id) → r0.id = record_id →
      app.update_weather db record_id w
        = ({ db with weather_records :=
              l1 ++ ({ r0 with
                       temperature := w.temperature,
                       description := w.description } :: l2) },
           .ok { r0 with
                 temperature := w.temperature,
                 description := w.description })) := by
  constructor
  · intro hall
    have hn : db.weather_records.find? (fun r => r.id == record_id) = none := by
      rw [List.find?_eq_none]
      intro x hx
      simp [beq_false_of_ne (hall x hx)]
    unfold app.update_weather
    rw [hn]
  · intro l1 r0 l2 hdec hl1 h0
    have hs : db.weather_records.find? (fun r => r.id == record_id)
        = some r0 := by
      rw [hdec]
      exact find?_decomposed l1 l2 r0 record_id hl1 h0
    unfold app.update_weather
    rw [hs, hdec]
    rw [updateFirst_decomposed l1 l2 r0 record_id w hl1 h0]

/-- Claim C10: DELETE /locations/:id on an existing location removes the
location and every weather and historical record referencing it (zero
orphans), keeps every record of other locations, and on an absent id
returns the 404 error with the database unchanged. -/
theorem delete_location_cascade (db : DB) (location_id : Nat) :
    ((∀ l ∈ db.locations, l.id ≠ location_id) →
      app.delete_location db location_id
        = (db, .error (.http 404 "Location not found"))) ∧
    ((∃ l ∈ db.locations, l.id = location_id) →
      (∀ l ∈ (app.delete_location db location_id).1.locations,
        l.id ≠ location_id) ∧
      (∀ r ∈ (app.delete_location db location_id).1.weather_records,
        r.location_id ≠ location_id) ∧
      (∀ r ∈ (app.delete_location db location_id).1.historical_records,
        r.location_id ≠ location_id) ∧
      (∀ r ∈ db.weather_records, r.location_id ≠ location_id →
        r ∈ (app.delete_location db location_id).1.weather_records) ∧
      (∀ r ∈ db.historical_records, r.location_id ≠ location_id →
        r ∈ (app.delete_location db location_id).1.historical_records) ∧
      (app.delete_location db location_id).2
        = .ok "Location and associated records deleted successfully") := by
  constructor
  · intro hall
    have hn : db.locations.find? (fun l => l.id == location_id) = none := by
      rw [List.find?_eq_none]
      intro x hx
      simp [beq_false_of_ne (hall x hx)]
    unfold app.delete_location crud.delete_location
    rw [hn]
  · intro hex
    obtain ⟨l0, hmem, hid⟩ := hex
    have hs : (db.locations.find? (fun l => l.id == location_id)).isSome := by
      rw [List.find?_isSome]
      exact ⟨l0, hmem, by simp [hid]⟩
    obtain ⟨lf, hlf⟩ := Option.isSome_iff_exists.mp hs
    have hres : app.delete_location db location_id
        = ({ db with
              locations :=
                db.locations.filter (fun l => !(l.id == location_id)),
              weather_records :=
                db.weather_records.filter
                  (fun r => !(r.location_id == location_id)),
              historical_records :=
                db.historical_records.filter
                  (fun r => !(r.location_id == location_id)) },
           .ok "Location and associated records deleted successfully") := by
      unfold app.delete_location crud.delete_location
      rw [hlf]
    rw [hres]
    refine ⟨?_, ?_, ?_, ?_, ?_, rfl⟩
    · intro l hl
      have := (List.mem_filter.mp hl).2
      simp only [Bool.not_eq_true', beq_eq_false_iff_ne] at this
      exact this
    · intro r hr
      have := (List.mem_filter.mp hr).2
      simp only [Bool.not_eq_true', beq_eq_false_iff_ne] at this
      exact this
    · intro r hr
      have := (List.mem_filter.mp hr).2
      simp only [Bool.not_eq_true', beq_eq_false_iff_ne] at this
      exact this
    · intro r hr hne
      exact List.mem_filter.mpr ⟨hr, by simp [beq_false_of_ne hne]⟩
    · intro r hr hne
      exact List.mem_filter.mpr ⟨hr, by simp [beq_false_of_ne hne]⟩

theorem resolve_or_create_weather_records (db : DB) (c co : String)
    (la lo : ℚ) :
    (app.resolve_or_create_location db c co la lo).1.weather_records
      = db.weather_records := by
  unfold app.resolve_or_create_location
  cases crud.get_location_by_city db c (some co) <;>
    simp [crud.create_location]

theorem resolve_or_create_historical_records (db : DB) (c co : String)
    (la lo : ℚ) :
    (app.resolve_or_create_location db c co la lo).1.historical_records
      = db.historical_records := by
  unfold app.resolve_or_create_location
  cases crud.get_location_by_city db c (some co) <;>
    simp [crud.create_location]

theorem buildHistoricalCreate_no_icon (t h p : ℚ) (d : String) (dtv : Int)
    (la lo : ℚ) (loc_id : Nat) (ts now : Int) :
    app.buildHistoricalCreate
      [("temperature", .num t), ("humidity", .num h), ("pressure", .num p),
       ("description", .str d), ("timestamp", .dt dtv),
       ("latitude", .num la), ("longitude", .num lo)] loc_id ts now
      = .error (.keyError "icon") := rfl

/-- Claim C2: when both upstream fetches succeed, the historical adapter
payload carries no icon key, so the dict read of icon in the endpoint
raises a KeyError that is not a WeatherAPIException: the endpoint neither
persists a historical record nor returns a success response. -/
theorem historical_icon_keyerror (db : DB) (now : Int) (city : String)
    (ts : Int) (apiKey : Option String) (raw : CurrentRaw)
    (resp : UpstreamHistResponse)
    (hkey : weather_api.apiKeyConfigured apiKey = true)
    (hdata : resp.data ≠ []) :
    (∀ d, weather_api.get_historical_weather apiKey ts
        (some raw.coord_lat) (some raw.coord_lon) (.ok raw) (.ok resp)
        = .ok d →
      dictGet d "icon" = .error (.keyError "icon")) ∧
    (app.get_historical_weather db now city ts apiKey
        (.ok raw) (.ok resp)).2
      = .error (.uncaught (.keyError "icon")) ∧
    (app.get_historical_weather db now city ts apiKey
        (.ok raw) (.ok resp)).1.historical_records
      = db.historical_records := by
  obtain ⟨entry, rest, hds⟩ : ∃ entry rest, resp.data = entry :: rest := by
    cases h : resp.data with
    | nil => exact absurd h hdata
    | cons a as => exact ⟨a, as, rfl⟩
  have hadapter : weather_api.get_historical_weather apiKey ts
      (some raw.coord_lat) (some raw.coord_lon) (.ok raw) (.ok resp)
      = .ok [("temperature", .num entry.temp),
             ("humidity", .num entry.humidity),
             ("pressure", .num entry.pressure),
             ("description", .str entry.description),
             ("timestamp", .dt entry.dt),
             ("latitude", .num resp.lat),
             ("longitude", .num resp.lon)] := by
    simp [weather_api.get_historical_weather, hkey, hds]
  have hend : app.get_historical_weather db now city ts apiKey
      (.ok raw) (.ok resp)
      = ((app.resolve_or_create_location db city raw.sys_country
            raw.coord_lat raw.coord_lon).1,
         .error (.uncaught (.keyError "icon"))) := by
    unfold app.get_historical_weather
    simp only [weather_api.get_current_weather]
    rw [hadapter]
    simp only [buildHistoricalCreate_no_icon]
  refine ⟨?_, ?_, ?_⟩
  · intro d hd
    rw [hadapter] at hd
    injection hd with h
    subst h
    rfl
  · rw [hend]
  · rw [hend]
    exact resolve_or_create_historical_records db city raw.sys_country
      raw.coord_lat raw.coord_lon

/-- The empty database. -/
def emptyDB : DB :=
  { locations := [], weather_records := [], historical_records := [],
    next_location_id := 1, next_weather_id := 1, next_historical_id := 1 }

/-- A successful upstream /weather body for London. -/
def londonRaw : CurrentRaw :=
  { main_temp := 283.15, main_humidity := 81, main_pressure := 1012,
    weather0_description := "light rain", weather0_icon := "10d",
    coord_lat := 5151/100, coord_lon := -13/100, sys_country := "GB" }

/-- A successful timemachine body with one data entry for dt 1700000000. -/
def londonHistResponse : UpstreamHistResponse :=
  { lat := 5151/100, lon := -13/100,
    data := [{ temp := 9, humidity := 85, pressure := 1008,
               description := "overcast clouds", dt := 1700000000 }] }

/-- Claim C1 (failing run): the historical endpoint for London at
timestamp 1700000000 with both upstream fetches succeeding ends in the
uncaught KeyError on icon and persists no HistoricalWeatherRecord, instead
of returning the stored record. -/
theorem historical_endpoint_crashes_for_london :
    (app.get_historical_weather emptyDB 1700000500 "London" 1700000000
        (some "test-key") (.ok londonRaw) (.ok londonHistResponse)).2
      = .error (.uncaught (.keyError "icon")) ∧
    (app.get_historical_weather emptyDB 1700000500 "London" 1700000000
        (some "test-key") (.ok londonRaw) (.ok londonHistResponse)).1.historical_records
      = [] := ⟨rfl, rfl⟩

theorem historical_icon_keyerror_witness :
    weather_api.apiKeyConfigured (some "k") = true ∧
    londonHistResponse.data ≠ [] ∧
    (app.get_historical_weather locationsExample 1700000500 "London"
        1700000000 (some "k") (.ok londonRaw) (.ok londonHistResponse)).2
      = .error (.uncaught (.keyError "icon")) :=
  ⟨by decide, by decide,
    (historical_icon_keyerror locationsExample 1700000500 "London"
      1700000000 (some "k") londonRaw londonHistResponse (by decide)
      (by decide)).2.1⟩

theorem get_location_by_city_locations (db db2 : DB) (c : String)
    (co : Option String) (h : db2.locations = db.locations) :
    crud.get_location_by_city db2 c co = crud.get_location_by_city db c co := by
  unfold crud.get_location_by_city
  rw [h]

/-- The normalized current-weather payload for a successful fetch. -/
def currentData (raw : CurrentRaw) : weather_api.CurrentWeatherData :=
  { temperature := weather_api.kelvin_to_celsius raw.main_temp,
    humidity := raw.main_humidity,
    pressure := raw.main_pressure,
    description := raw.weather0_description,
    icon := raw.weather0_icon,
    latitude := raw.coord_lat,
    longitude := raw.coord_lon,
    country := raw.sys_country }

/-- The database after the location step of the current-weather workflow. -/
def resolvedDB (db : DB) (city : String) (raw : CurrentRaw) : DB :=
  (app.resolve_or_create_location db city raw.sys_country
    raw.coord_lat raw.coord_lon).1

/-- The location the current-weather workflow resolves or creates. -/
def resolvedLoc (db : DB) (city : String) (raw : CurrentRaw) : Location :=
  (app.resolve_or_create_location db city raw.sys_country
    raw.coord_lat raw.coord_lon).2

/-- The dedup filter of main.py lines 62-65: same location and timestamp at
most 60 seconds before the call instant. -/
def recentPred (locId : Nat) (now : Int) : WeatherRecord → Bool :=
  fun r => r.location_id == locId && decide (now - 60 ≤ r.timestamp)

/-- The row the current-weather workflow inserts when the dedup check finds
nothing. -/
def newCurrentRecord (db : DB) (city : String) (raw : CurrentRaw)
    (now : Int) : WeatherRecord :=
  { id := (resolvedDB db city raw).next_weather_id,
    location_id := (resolvedLoc db city raw).id,
    temperature := weather_api.kelvin_to_celsius raw.main_temp,
    humidity := raw.main_humidity,
    pressure := raw.main_pressure,
    description := raw.weather0_description,
    icon := raw.weather0_icon,
    timestamp := now }

theorem current_weather_op (db : DB) (now : Int) (city : String)
    (raw : CurrentRaw) :
    app.get_current_weather db now city (.ok raw)
      = (match (resolvedDB db city raw).weather_records.find?
            (recentPred (resolvedLoc db city raw).id now) with
         | some _ => (resolvedDB db city raw, .ok (currentData raw))
         | none =>
           ((crud.create_weather_record (resolvedDB db city raw)
              { location_id := (resolvedLoc db city raw).id,
                temperature := weather_api.kelvin_to_celsius raw.main_temp,
                humidity := raw.main_humidity,
                pressure := raw.main_pressure,
                description := raw.weather0_description,
                icon := raw.weather0_icon } now).1,
            .ok (currentData raw))) := rfl

theorem resolvedDB_weather_records (db : DB) (city : String)
    (raw : CurrentRaw) :
    (resolvedDB db city raw).weather_records = db.weather_records :=
  resolve_or_create_weather_records db city raw.sys_country
    raw.coord_lat raw.coord_lon

theorem cw_skip (db : DB) (now : Int) (city : String) (raw : CurrentRaw)
    (r : WeatherRecord)
    (h : (resolvedDB db city raw).weather_records.find?
        (recentPred (resolvedLoc db city raw).id now) = some r) :
    (app.get_current_weather db now city (.ok raw)).1.weather_records
      = db.weather_records := by
  rw [current_weather_op, h]
  exact resolvedDB_weather_records db city raw

theorem cw_insert (db : DB) (now : Int) (city : String) (raw : CurrentRaw)
    (h : (resolvedDB db city raw).weather_records.find?
        (recentPred (resolvedLoc db city raw).id now) = none) :
    (app.get_current_weather db now city (.ok raw)).1.weather_records
      = db.weather_records ++ [newCurrentRecord db city raw now] := by
  rw [current_weather_op, h]
  show (crud.create_weather_record (resolvedDB db city raw) _ now).1.weather_records = _
  unfold crud.create_weather_record
  rw [resolvedDB_weather_records db city raw]
  rfl

theorem cw_len_le (db : DB) (now : Int) (city : String) (raw : CurrentRaw) :
    (app.get_current_weather db now city (.ok raw)).1.weather_records.length
      ≤ db.weather_records.length + 1 := by
  cases hf : (resolvedDB db city raw).weather_records.find?
      (recentPred (resolvedLoc db city raw).id now) with
  | some r =>
    rw [cw_skip db now city raw r hf]
    omega
  | none =>
    rw [cw_insert db now city raw hf]
    simp

theorem cw_locations_after (db : DB) (now : Int) (city : String)
    (raw : CurrentRaw) :
    (app.get_current_weather db now city (.ok raw)).1.locations
      = (resolvedDB db city raw).locations := by
  cases hf : (resolvedDB db city raw).weather_records.find?
      (recentPred (resolvedLoc db city raw).id now) with
  | some r =>
    rw [current_weather_op, hf]
  | none =>
    rw [current_weather_op, hf]
    show (crud.create_weather_record (resolvedDB db city raw) _ now).1.locations = _
    unfold crud.create_weather_record
    rfl

theorem resolve_or_create_stable (db db2 : DB) (c co : String) (la lo : ℚ)
    (h : db2.locations
      = (app.resolve_or_create_location db c co la lo).1.locations) :
    app.resolve_or_create_location db2 c co la lo
      = (db2, (app.resolve_or_create_location db c co la lo).2) := by
  cases hf : crud.get_location_by_city db c (some co) with
  | some l =>
    have hr : app.resolve_or_create_location db c co la lo = (db, l) := by
      unfold app.resolve_or_create_location
      rw [hf]
    rw [hr] at h
    have hf2 : crud.get_location_by_city db2 c (some co) = some l := by
      rw [get_location_by_city_locations db db2 c (some co) h, hf]
    unfold app.resolve_or_create_location
    rw [hf2, hf]
  | none =>
    have hr : app.resolve_or_create_location db c co la lo
        = crud.create_location db
            { city := c, country := co, latitude := la, longitude := lo } := by
      unfold app.resolve_or_create_location
      rw [hf]
    have hf0 : db.locations.find? (fun l =>
        (l.city.toLower == c.toLower) &&
        (match (some co : Option String) with
         | none => true
         | some c0 => if c0 == "" then true else l.country == c0)) = none := by
      have := hf
      unfold crud.get_location_by_city at this
      exact this
    rw [hr] at h
    have hloc : db2.locations = db.locations ++
        [{ id := db.next_location_id, city := c, country := co,
           latitude := la, longitude := lo }] := by
      rw [h]
      rfl
    have hf2 : crud.get_location_by_city db2 c (some co)
        = some { id := db.next_location_id, city := c, country := co,
                 latitude := la, longitude := lo } := by
      unfold crud.get_location_by_city
      rw [hloc, find?_append_of_none hf0, List.find?_cons_of_pos]
      cases hco : (co == "") with
      | true => simp [hco]
      | false => simp [hco]
    unfold app.resolve_or_create_location
    rw [hf2, hf]
    rfl

/-- Claim C3: a current-weather ingestion call inserts a new WeatherRecord
exactly when no WeatherRecord of the resolved location carries a timestamp
within the last 60 seconds of the call instant, and two calls for the same
city within 60 seconds persist at most one new record in total. -/
theorem current_weather_dedup (db : DB) (t1 t2 : Int) (city : String)
    (raw : CurrentRaw) (h1 : t1 ≤ t2) (h2 : t2 ≤ t1 + 60) :
    ((app.get_current_weather db t1 city (.ok raw)).1.weather_records
        = db.weather_records ++ [newCurrentRecord db city raw t1]
      ↔ ¬ ∃ r ∈ db.weather_records,
            r.location_id = (resolvedLoc db city raw).id ∧
            t1 - 60 ≤ r.timestamp) ∧
    ((app.get_current_weather db t1 city (.ok raw)).1.weather_records
        = db.weather_records
      ↔ ∃ r ∈ db.weather_records,
            r.location_id = (resolvedLoc db city raw).id ∧
            t1 - 60 ≤ r.timestamp) ∧
    ((app.get_current_weather
        (app.get_current_weather db t1 city (.ok raw)).1
        t2 city (.ok raw)).1.weather_records.length
      ≤ db.weather_records.length + 1) := by
  have hrw := resolvedDB_weather_records db city raw
  have hex_iff : ((db.weather_records.find?
        (recentPred (resolvedLoc db city raw).id t1)).isSome = true)
      ↔ ∃ r ∈ db.weather_records,
          r.location_id = (resolvedLoc db city raw).id ∧
          t1 - 60 ≤ r.timestamp := by
    simp only [List.find?_isSome, recentPred, Bool.and_eq_true, beq_iff_eq,
      decide_eq_true_eq]
  cases hcase : db.weather_records.find?
      (recentPred (resolvedLoc db city raw).id t1) with
  | some r0 =>
    have hskip := cw_skip db t1 city raw r0 (by rw [hrw]; exact hcase)
    have hex : ∃ r ∈ db.weather_records,
        r.location_id = (resolvedLoc db city raw).id ∧
        t1 - 60 ≤ r.timestamp := by
      rw [← hex_iff, hcase]
      rfl
    refine ⟨?_, iff_of_true hskip hex, ?_⟩
    · refine iff_of_false ?_ (not_not_intro hex)
      rw [hskip]
      intro hbad
      have hlen := congrArg List.length hbad
      rw [List.length_append, List.length_singleton] at hlen
      omega
    · have hlen1 : (app.get_current_weather db t1 city
          (.ok raw)).1.weather_records.length
          = db.weather_records.length := by rw [hskip]
      calc (app.get_current_weather
            (app.get_current_weather db t1 city (.ok raw)).1
            t2 city (.ok raw)).1.weather_records.length
          ≤ (app.get_current_weather db t1 city
              (.ok raw)).1.weather_records.length + 1 :=
            cw_len_le _ t2 city raw
        _ = db.weather_records.length + 1 := by rw [hlen1]
  | none =>
    have hins := cw_insert db t1 city raw (by rw [hrw]; exact hcase)
    have hnex : ¬ ∃ r ∈ db.weather_records,
        r.location_id = (resolvedLoc db city raw).id ∧
        t1 - 60 ≤ r.timestamp := by
      rw [← hex_iff, hcase]
      simp
    refine ⟨iff_of_true hins hnex, ?_, ?_⟩
    · refine iff_of_false ?_ hnex
      rw [hins]
      intro hbad
      have hlen := congrArg List.length hbad
      rw [List.length_append, List.length_singleton] at hlen
      omega
    · set db1 := (app.get_current_weather db t1 city (.ok raw)).1 with hdb1
      have hloc1 : db1.locations
          = (app.resolve_or_create_location db city raw.sys_country
              raw.coord_lat raw.coord_lon).1.locations :=
        cw_locations_after db t1 city raw
      have hstab := resolve_or_create_stable db db1 city raw.sys_country
        raw.coord_lat raw.coord_lon hloc1
      have hrdb1 : resolvedDB db1 city raw = db1 := by
        unfold resolvedDB
        rw [hstab]
      have hrloc1 : resolvedLoc db1 city raw = resolvedLoc db city raw := by
        unfold resolvedLoc
        rw [hstab]
      have hmem : newCurrentRecord db city raw t1 ∈ db1.weather_records := by
        rw [hins]
        exact List.mem_append_right _ (List.mem_singleton_self _)
      have hfind2 : ((resolvedDB db1 city raw).weather_records.find?
          (recentPred (resolvedLoc db1 city raw).id t2)).isSome = true := by
        rw [hrdb1, hrloc1, List.find?_isSome]
        refine ⟨newCurrentRecord db city raw t1, hmem, ?_⟩
        simp only [recentPred, newCurrentRecord, Bool.and_eq_true,
          beq_iff_eq, decide_eq_true_eq]
        refine ⟨?_, ?_⟩ <;> first | rfl | omega | trivial
      obtain ⟨r2, hr2⟩ := Option.isSome_iff_exists.mp hfind2
      have hskip2 := cw_skip db1 t2 city raw r2 hr2
      rw [hskip2, hins]
      simp

theorem current_weather_dedup_witness :
    (1000 : Int) ≤ 1030 ∧ (1030 : Int) ≤ 1000 + 60 ∧
    (app.get_current_weather
        (app.get_current_weather emptyDB 1000 "Paris" (.ok londonRaw)).1
        1030 "Paris" (.ok londonRaw)).1.weather_records.length
      ≤ emptyDB.weather_records.length + 1 :=
  ⟨by decide, by decide,
    (current_weather_dedup emptyDB 1000 1030 "Paris" londonRaw
      (by decide) (by decide)).2.2⟩
